import Mathlib

/-!
Verification development for the PDF-to-Excel document structuring tool
(`solutions.py`).  The pipeline is: extract per-page text from a PDF,
call an LLM requesting a JSON object, validate the JSON against the
pydantic models `ExtractedPair` / `DocumentStructure`, and write the
validated records to a one-sheet spreadsheet.

The embedding models:
  - JSON values as an inductive type `Json`, together with a JSON text
    parser `Json.parse` standing for the parser used by
    `DocumentStructure.model_validate_json` (objects keep field order;
    a duplicate key is resolved to its last occurrence, as in Python);
  - pydantic validation of `ExtractedPair` (with the `Comment` alias and
    `populate_by_name=True`, and pydantic's default of ignoring extra
    fields) and of `DocumentStructure`;
  - the PDF text extractor `read_pdf_text` over the list of per-page
    extracted texts (an unparseable input is an `Except.error`, standing
    for the exception caught by the `try`/`except` block);
  - the spreadsheet writer `create_excel_bytes` at workbook level (one
    active sheet, rows appended in order; byte serialisation is done by
    the external library and is not modelled);
  - the `main` run logic that halts on empty extracted text and on the
    truthiness of the validated record list.
-/

/-- A JSON value.  Object fields keep their textual order; numbers keep
their lexeme, since the program only ever distinguishes strings from
non-strings. -/
inductive Json where
  | null
  | bool (b : Bool)
  | num (raw : String)
  | str (s : String)
  | arr (elems : List Json)
  | obj (fields : List (String × Json))

/-- JSON whitespace. -/
def isJsonWs (c : Char) : Bool :=
  c = ' ' || c = '\t' || c = '\n' || c = '\r'

/-- Drop leading JSON whitespace. -/
def skipWs : List Char → List Char
  | [] => []
  | c :: cs => if isJsonWs c then skipWs cs else c :: cs

/-- Value of a hexadecimal digit. -/
def hexVal (c : Char) : Option Nat :=
  let n := c.toNat
  if 48 ≤ n && n ≤ 57 then some (n - 48)
  else if 97 ≤ n && n ≤ 102 then some (n - 87)
  else if 65 ≤ n && n ≤ 70 then some (n - 55)
  else none

/-- Combine four hex digits into a code point. -/
def hex4 (h1 h2 h3 h4 : Char) : Option Nat := do
  let a ← hexVal h1
  let b ← hexVal h2
  let c ← hexVal h3
  let d ← hexVal h4
  some (a * 4096 + b * 256 + c * 16 + d)

/-- Parse the body of a JSON string after the opening quote; returns the
decoded characters and the input after the closing quote. -/
def parseStringChars : List Char → Option (List Char × List Char)
  | [] => none
  | '"' :: cs => some ([], cs)
  | '\\' :: '"' :: cs => (parseStringChars cs).map (fun r => ('"' :: r.1, r.2))
  | '\\' :: '\\' :: cs => (parseStringChars cs).map (fun r => ('\\' :: r.1, r.2))
  | '\\' :: '/' :: cs => (parseStringChars cs).map (fun r => ('/' :: r.1, r.2))
  | '\\' :: 'b' :: cs => (parseStringChars cs).map (fun r => ('\x08' :: r.1, r.2))
  | '\\' :: 'f' :: cs => (parseStringChars cs).map (fun r => ('\x0c' :: r.1, r.2))
  | '\\' :: 'n' :: cs => (parseStringChars cs).map (fun r => ('\n' :: r.1, r.2))
  | '\\' :: 'r' :: cs => (parseStringChars cs).map (fun r => ('\x0d' :: r.1, r.2))
  | '\\' :: 't' :: cs => (parseStringChars cs).map (fun r => ('\t' :: r.1, r.2))
  | '\\' :: 'u' :: h1 :: h2 :: h3 :: h4 :: cs =>
    match hex4 h1 h2 h3 h4 with
    | none => none
    | some n =>
      if 55296 ≤ n && n ≤ 56319 then
        match cs with
        | '\\' :: 'u' :: g1 :: g2 :: g3 :: g4 :: cs2 =>
          match hex4 g1 g2 g3 g4 with
          | none => none
          | some m =>
            if 56320 ≤ m && m ≤ 57343 then
              (parseStringChars cs2).map (fun r =>
                (Char.ofNat (65536 + (n - 55296) * 1024 + (m - 56320)) :: r.1, r.2))
            else none
        | _ => none
      else if 56320 ≤ n && n ≤ 57343 then none
      else (parseStringChars cs).map (fun r => (Char.ofNat n :: r.1, r.2))
  | '\\' :: _ => none
  | c :: cs =>
    if c.toNat < 32 then none
    else (parseStringChars cs).map (fun r => (c :: r.1, r.2))

/-- Take the longest run of leading decimal digits. -/
def takeDigits : List Char → List Char × List Char
  | [] => ([], [])
  | c :: cs =>
    if 48 ≤ c.toNat && c.toNat ≤ 57 then
      let r := takeDigits cs
      (c :: r.1, r.2)
    else ([], c :: cs)

/-- Parse the integer part of a JSON number (no leading zeros). -/
def parseIntPart : List Char → Option (List Char × List Char)
  | [] => none
  | '0' :: cs => some (['0'], cs)
  | c :: cs =>
    if 49 ≤ c.toNat && c.toNat ≤ 57 then
      let r := takeDigits cs
      some (c :: r.1, r.2)
    else none

/-- Parse an optional fraction part. -/
def parseFracPart : List Char → List Char × List Char
  | '.' :: cs =>
    match takeDigits cs with
    | ([], _) => ([], '.' :: cs)
    | (d, r) => ('.' :: d, r)
  | cs => ([], cs)

/-- Parse an optional exponent part. -/
def parseExpPart : List Char → List Char × List Char
  | [] => ([], [])
  | c :: cs =>
    if c = 'e' || c = 'E' then
      match cs with
      | [] => ([], [c])
      | s :: cs2 =>
        if s = '+' || s = '-' then
          match takeDigits cs2 with
          | ([], _) => ([], c :: s :: cs2)
          | (d, r) => (c :: s :: d, r)
        else
          match takeDigits cs with
          | ([], _) => ([], c :: cs)
          | (d, r) => (c :: d, r)
    else ([], c :: cs)

/-- Parse a JSON number lexeme. -/
def parseNumberLexeme : List Char → Option (List Char × List Char)
  | '-' :: cs =>
    match parseIntPart cs with
    | none => none
    | some (ip, rest) =>
      let f := parseFracPart rest
      let e := parseExpPart f.2
      some ('-' :: ip ++ f.1 ++ e.1, e.2)
  | cs =>
    match parseIntPart cs with
    | none => none
    | some (ip, rest) =>
      let f := parseFracPart rest
      let e := parseExpPart f.2
      some (ip ++ f.1 ++ e.1, e.2)

mutual

/-- Parse one JSON value (fuel-indexed). -/
def parseVal : Nat → List Char → Option (Json × List Char)
  | 0, _ => none
  | Nat.succ fuel, cs =>
    match skipWs cs with
    | 'n' :: 'u' :: 'l' :: 'l' :: rest => some (Json.null, rest)
    | 't' :: 'r' :: 'u' :: 'e' :: rest => some (Json.bool true, rest)
    | 'f' :: 'a' :: 'l' :: 's' :: 'e' :: rest => some (Json.bool false, rest)
    | '"' :: rest =>
      (parseStringChars rest).map (fun r => (Json.str (String.mk r.1), r.2))
    | '[' :: rest =>
      (match skipWs rest with
       | ']' :: rest2 => some (Json.arr [], rest2)
       | _ => (parseItems fuel rest).map (fun r => (Json.arr r.1, r.2)))
    | '\x7b' :: rest =>
      (match skipWs rest with
       | '\x7d' :: rest2 => some (Json.obj [], rest2)
       | _ => (parseMembers fuel rest).map (fun r => (Json.obj r.1, r.2)))
    | other => (parseNumberLexeme other).map (fun r => (Json.num (String.mk r.1), r.2))

/-- Parse the comma-separated items of a non-empty JSON array, including
the closing bracket. -/
def parseItems : Nat → List Char → Option (List Json × List Char)
  | 0, _ => none
  | Nat.succ fuel, cs => do
    let (v, rest) ← parseVal fuel cs
    match skipWs rest with
    | ',' :: rest2 => (parseItems fuel rest2).map (fun r => (v :: r.1, r.2))
    | ']' :: rest2 => some ([v], rest2)
    | _ => none

/-- Parse the members of a non-empty JSON object, including the closing
brace. -/
def parseMembers : Nat → List Char → Option (List (String × Json) × List Char)
  | 0, _ => none
  | Nat.succ fuel, cs =>
    match skipWs cs with
    | '"' :: rest => do
      let (key, rest2) ← parseStringChars rest
      match skipWs rest2 with
      | ':' :: rest3 => do
        let (v, rest4) ← parseVal fuel rest3
        match skipWs rest4 with
        | ',' :: rest5 => (parseMembers fuel rest5).map (fun r => ((String.mk key, v) :: r.1, r.2))
        | '\x7d' :: rest5 => some ([(String.mk key, v)], rest5)
        | _ => none
      | _ => none
    | _ => none

end

/-- Parse a complete JSON text: one value, possibly surrounded by
whitespace, with nothing after it. -/
def Json.parse (s : String) : Option Json :=
  match parseVal (4 * s.length + 4) s.toList with
  | some (v, rest) => if (skipWs rest).isEmpty then some v else none
  | none => none

/-- Look a key up in a JSON object's field list.  The LAST occurrence
wins, matching Python dict construction from JSON text, where a later
duplicate key overwrites an earlier one. -/
def lookupField : List (String × Json) → String → Option Json
  | [], _ => none
  | f :: rest, key =>
    match lookupField rest key with
    | some v => some v
    | none => if f.1 = key then some f.2 else none

/-- One row of the output, as in `solutions.py`: fields `Key`, `Value`
and `comment`, the last serialised under the alias `Comment`. -/
structure ExtractedPair where
  Key : String
  Value : String
  comment : String
deriving DecidableEq

instance : Inhabited ExtractedPair := ⟨⟨(""), (""), ("")⟩⟩

/-- Pydantic string-field validation: the JSON value must be a string
(pydantic v2 does not coerce numbers, booleans or null to `str`). -/
def asStr : Option Json → Option String
  | some (Json.str s) => some s
  | _ => none

/-- The JSON value feeding the `comment` field: the alias `Comment` is
consulted first; with `populate_by_name=True` the field name `comment`
is accepted when the alias is absent. -/
def commentValue (fields : List (String × Json)) : Option Json :=
  match lookupField fields ("Comment") with
  | some x => some x
  | none => lookupField fields ("comment")

/-- Pydantic validation of one `ExtractedPair` from a JSON value: the
value must be an object; `Key` and `Value` must be present as strings
under exactly those names; the comment must be a string under `Comment`
or, failing that, `comment`.  Extra fields are ignored (pydantic's
default `extra` behaviour). -/
def ExtractedPair.validate : Json → Option ExtractedPair
  | Json.obj fields =>
    match asStr (lookupField fields ("Key")), asStr (lookupField fields ("Value")),
          asStr (commentValue fields) with
    | some k, some v, some c => some ⟨k, v, c⟩
    | _, _, _ => none
  | _ => none

/-- Pydantic validation of `list[ExtractedPair]`: every element must
validate, in order; a single failure fails the whole list. -/
def validatePairs : List Json → Option (List ExtractedPair)
  | [] => some []
  | e :: es =>
    match ExtractedPair.validate e, validatePairs es with
    | some p, some ps => some (p :: ps)
    | _, _ => none

/-- The root model: a single field `extracted_data` holding the list of
records. -/
structure DocumentStructure where
  extracted_data : List ExtractedPair
deriving DecidableEq

/-- Pydantic validation of `DocumentStructure` from a JSON value: the
value must be an object whose `extracted_data` field is an array of
valid `ExtractedPair` objects.  Extra top-level fields are ignored. -/
def DocumentStructure.validate : Json → Option DocumentStructure
  | Json.obj fields =>
    match lookupField fields ("extracted_data") with
    | some (Json.arr elems) => (validatePairs elems).map (fun l => ⟨l⟩)
    | _ => none
  | _ => none

/-- Models `DocumentStructure.model_validate_json`: parse the JSON text,
then validate the resulting value; either step failing fails the whole
call (the caller's `except` turns that into `None`). -/
def DocumentStructure.model_validate_json (s : String) : Option DocumentStructure :=
  (Json.parse s).bind DocumentStructure.validate

/-- Models `extract_data_with_llm` from the point the raw response text
is in hand: `resp = none` stands for an API error (the request raised),
`some s` for a returned message content `s`.  Validation failure or API
failure both fall into the `except` branch and yield `none`. -/
def extract_data_with_llm (resp : Option String) : Option (List ExtractedPair) :=
  match resp with
  | none => none
  | some s => (DocumentStructure.model_validate_json s).map (fun d => d.extracted_data)

/-- The placeholder appended when a page yields no text. -/
def noTextPlaceholder : String := ("(No readable text on this page)")

/-- The text contributed by one page's extracted text `t`: `t` itself
when truthy (non-empty), the placeholder otherwise. -/
def pageBody (t : String) : String :=
  if t = ("") then noTextPlaceholder else t

/-- The accumulation loop of `read_pdf_text`: for each page, append the
marker for the 1-based page number, then the page body. -/
def readPagesLoop : List String → Nat → String → String
  | [], _, acc => acc
  | t :: ts, i, acc =>
    readPagesLoop ts (i + 1) (acc ++ ("\n--- Page ") ++ toString (i + 1) ++ (" ---\n") ++ pageBody t)

/-- The text produced from the pages of a parseable PDF, final
whitespace-strip included. -/
def extractPagesText (pages : List String) : String :=
  (readPagesLoop pages 0 ("")).trim

/-- Result of `read_pdf_text`: the returned string, and whether the
error path (`st.error`) was taken. -/
structure ExtractResult where
  text : String
  errorShown : Bool
deriving DecidableEq

/-- Models `read_pdf_text`.  The input is the parse outcome of the
uploaded bytes: `Except.ok pages` is a parseable PDF given by its
per-page extracted texts, `Except.error e` a source whose parsing
raised exception message `e`.  The `try`/`except` block catches every
exception, reports it, and returns the empty string; the function is
total, so no exception propagates. -/
def read_pdf_text (input : Except String (List String)) : ExtractResult :=
  match input with
  | Except.ok pages => ⟨extractPagesText pages, false⟩
  | Except.error _ => ⟨(""), true⟩

/-- Spec-side definition (for the claims about page markers): the
page-boundary marker containing the 1-based page number. -/
def pageMarker (n : Nat) : String :=
  ("\n--- Page ") ++ toString n ++ (" ---\n")

/-- Spec-side definition: the per-page blocks starting from page index
`i` (0-based), each a marker followed by the page body. -/
def pageBlocksFrom : Nat → List String → List String
  | _, [] => []
  | i, t :: ts => (pageMarker (i + 1) ++ pageBody t) :: pageBlocksFrom (i + 1) ts

/-- Spec-side definition: the per-page blocks of a whole document. -/
def pageBlocks (pages : List String) : List String :=
  pageBlocksFrom 0 pages

/-- Concatenation of a list of strings. -/
def strJoin : List String → String
  | [] => ("")
  | s :: rest => s ++ strJoin rest

/-- Models `item.model_dump(by_alias=True)`: the row dictionary, with
the `comment` field under its alias `Comment`. -/
def model_dump_by_alias (p : ExtractedPair) : List (String × String) :=
  [(("Key"), p.Key), (("Value"), p.Value), (("Comment"), p.comment)]

/-- The header row literal of `create_excel_bytes`. -/
def headers : List String := [("Key"), ("Value"), ("Comment")]

/-- One data row: `[row_dict['Key'], row_dict['Value'], row_dict['Comment']]`. -/
def excelRow (p : ExtractedPair) : List String :=
  [((model_dump_by_alias p).lookup ("Key")).getD (""),
   ((model_dump_by_alias p).lookup ("Value")).getD (""),
   ((model_dump_by_alias p).lookup ("Comment")).getD ("")]

/-- A workbook as created by the spreadsheet library: a fresh workbook
has exactly one (active) sheet; `append` adds a row to the active
sheet.  A sheet is its list of rows; serialisation to bytes is the
library's job and is not modelled. -/
structure Workbook where
  active : List (List String)
  otherSheets : List (List (List String))
deriving DecidableEq

/-- A fresh workbook: one empty active sheet, no others. -/
def Workbook.new : Workbook := ⟨[], []⟩

/-- All sheets of a workbook. -/
def Workbook.allSheets (wb : Workbook) : List (List (List String)) :=
  wb.active :: wb.otherSheets

/-- Models `ws.append(row)` on the active sheet. -/
def wsAppend (wb : Workbook) (row : List String) : Workbook :=
  { wb with active := wb.active ++ [row] }

/-- Models `create_excel_bytes` at workbook level: append the header
row, then one row per record in input order. -/
def create_excel_bytes (extracted_data : List ExtractedPair) : Workbook :=
  let wb := Workbook.new
  let wb2 := wsAppend wb headers
  extracted_data.foldl (fun w item => wsAppend w (excelRow item)) wb2

/-- Python truthiness of `structured_data` (an optional list): `None`
and the empty list are both falsy. -/
def pyTruthy : Option (List ExtractedPair) → Bool
  | none => false
  | some l => !l.isEmpty

/-- Observable outcome of one button-triggered run of `main`'s
processing block. -/
structure RunResult where
  llmCalled : Bool
  extractionWarning : Bool
  errorShown : Bool
  excel : Option Workbook
  downloadOffered : Bool
deriving DecidableEq

/-- Models the processing block of `main` (the `if process_button:`
body): empty extracted text warns and returns before any LLM work;
otherwise the LLM is called, and the spreadsheet/download only happen
when the validated record list is truthy.  `resp` is the LLM response
as in `extract_data_with_llm`. -/
def runMain (pdfContent : String) (resp : Option String) : RunResult :=
  if pdfContent = ("") then
    { llmCalled := false, extractionWarning := true, errorShown := false,
      excel := none, downloadOffered := false }
  else
    let structured := extract_data_with_llm resp
    if pyTruthy structured then
      { llmCalled := true, extractionWarning := false, errorShown := false,
        excel := some (create_excel_bytes (structured.getD [])), downloadOffered := true }
    else
      { llmCalled := true, extractionWarning := false, errorShown := structured.isNone,
        excel := none, downloadOffered := false }

/-- Spec-side predicate: the optional JSON value holds a string. -/
def isStrOpt : Option Json → Bool
  | some (Json.str _) => true
  | _ => false

/-- Spec-side predicate stating when one row is accepted by the
validator: an object supplying strings for `Key`, `Value`, and the
comment under `Comment` or (failing that) `comment`. -/
def specPairValid : Json → Bool
  | Json.obj fields =>
    isStrOpt (lookupField fields ("Key")) && isStrOpt (lookupField fields ("Value")) &&
      isStrOpt (commentValue fields)
  | _ => false

/-- Spec-side predicate stating when a whole response value is accepted:
an object whose `extracted_data` field is an array of accepted rows. -/
def specDocValid : Json → Bool
  | Json.obj fields =>
    match lookupField fields ("extracted_data") with
    | some (Json.arr elems) => elems.all specPairValid
    | _ => false
  | _ => false

/-- Spec-side predicate: the object's key set is exactly the given key
list (as a set). -/
def hasExactKeys (fields : List (String × Json)) (keys : List String) : Bool :=
  (fields.map Prod.fst).all (fun k => keys.contains k) &&
    keys.all (fun k => (fields.map Prod.fst).contains k)

/-- The claim's reading of a valid row: an object containing exactly the
fields `Key`, `Value` and `Comment`, each a string. -/
def claimPairExact : Json → Bool
  | Json.obj fields =>
    hasExactKeys fields [("Key"), ("Value"), ("Comment")] &&
      isStrOpt (lookupField fields ("Key")) && isStrOpt (lookupField fields ("Value")) &&
      isStrOpt (lookupField fields ("Comment"))
  | _ => false

/-- The claim's reading of a valid response: an object containing
exactly the field `extracted_data`, an array of exactly-shaped rows. -/
def claimDocExact : Json → Bool
  | Json.obj fields =>
    hasExactKeys fields [("extracted_data")] &&
      (match lookupField fields ("extracted_data") with
       | some (Json.arr elems) => elems.all claimPairExact
       | _ => false)
  | _ => false

/-- A JSON text the validator accepts although it has an extra top-level
field, a row field named `comment` instead of the wire name `Comment`,
and an extra row field. -/
def c1CexText : String :=
  ("\x7b\"extracted_data\":[\x7b\"Key\":\"a\",\"Value\":\"b\",\"comment\":\"c\",\"Extra\":\"d\"\x7d],\"extra_top\":\"e\"\x7d")

/-- The end-to-end scenario response text from the spec. -/
def c8Text : String :=
  ("\x7b\"extracted_data\":[\x7b\"Key\":\"Revenue Growth\",\"Value\":\"Revenue grew 20%\",\"Comment\":\"in Q3.\"\x7d]\x7d")

/-- A response text that validates to an empty record list. -/
def c9Text : String := ("\x7b\"extracted_data\":[]\x7d")

/-- Field access on a JSON value: the named field of an object, `none`
on any other shape. -/
def jsonField : Json → String → Option Json
  | Json.obj fields, key => lookupField fields key
  | _, _ => none

/-- A concrete valid row object. -/
def c6wElem : Json :=
  Json.obj [(("Key"), Json.str ("k")), (("Value"), Json.str ("v")), (("Comment"), Json.str ("c"))]

/-- A concrete valid response object with one row. -/
def c6wJson : Json := Json.obj [(("extracted_data"), Json.arr [c6wElem])]

/-- The document the validator produces from `c6wJson`. -/
def c6wDoc : DocumentStructure := ⟨[⟨("k"), ("v"), ("c")⟩]⟩

/-- A concrete row object carrying the wire field `Comment`. -/
def c7wJson : Json :=
  Json.obj [(("Key"), Json.str ("k")), (("Value"), Json.str ("v")), (("Comment"), Json.str ("s0"))]

/-- The extractor loop accumulates exactly the per-page blocks. -/
theorem readPagesLoop_eq (ts : List String) (i : Nat) (acc : String) :
    readPagesLoop ts i acc = acc ++ strJoin (pageBlocksFrom i ts) := by
  induction ts generalizing i acc with
  | nil => simp [readPagesLoop, pageBlocksFrom, strJoin, String.append_empty]
  | cons t ts ih =>
    simp only [readPagesLoop, pageBlocksFrom, strJoin]
    rw [ih]
    simp only [pageMarker, String.append_assoc]

/-- There is one block per page. -/
theorem pageBlocksFrom_length (i : Nat) (ts : List String) :
    (pageBlocksFrom i ts).length = ts.length := by
  induction ts generalizing i with
  | nil => rfl
  | cons t ts ih => simp [pageBlocksFrom, ih]

/-- The block at position `i` starts with the marker for page `j+i+1`. -/
theorem pageBlocksFrom_getD (j : Nat) (ts : List String) (i : Nat) (hi : i < ts.length) :
    (pageBlocksFrom j ts).getD i ("") =
      pageMarker (j + i + 1) ++ pageBody (ts.getD i ("")) := by
  induction ts generalizing j i with
  | nil => simp at hi
  | cons t ts ih =>
    cases i with
    | zero => simp [pageBlocksFrom]
    | succ n =>
      have harith : j + (n + 1) + 1 = (j + 1) + n + 1 := by omega
      rw [harith]
      simpa [pageBlocksFrom] using ih (j + 1) n (by simpa using hi)

/-- Each data row is the record's three fields in column order. -/
theorem excelRow_eq (p : ExtractedPair) : excelRow p = [p.Key, p.Value, p.comment] := rfl

/-- Folding the append step over the records appends their rows. -/
theorem create_excel_foldl (data : List ExtractedPair) (w : Workbook) :
    data.foldl (fun w item => wsAppend w (excelRow item)) w =
      ⟨w.active ++ data.map excelRow, w.otherSheets⟩ := by
  induction data generalizing w with
  | nil => simp
  | cons p ps ih =>
    rw [List.foldl_cons, ih]
    simp [wsAppend, List.append_assoc]

/-- The workbook the writer produces, in closed form. -/
theorem create_excel_bytes_eq (data : List ExtractedPair) :
    create_excel_bytes data = ⟨headers :: data.map excelRow, []⟩ := by
  unfold create_excel_bytes
  rw [create_excel_foldl]
  rfl

/-- Mapping then indexing equals indexing then mapping, for in-range
indices. -/
theorem map_excelRow_getD (data : List ExtractedPair) (i : Nat) (hi : i < data.length) :
    (data.map excelRow).getD i [] = excelRow (data.getD i default) := by
  induction data generalizing i with
  | nil => simp at hi
  | cons p ps ih =>
    cases i with
    | zero => rfl
    | succ n => simpa using ih n (by simpa using hi)

/-- Claim C3: for every parseable PDF with N pages, the extractor output
is the whitespace-trimmed concatenation, in page order, of one block per
page, where the block for page i is the page-boundary marker carrying
the 1-based page number i+1 followed by that page's extracted text, or
the fixed placeholder when the page yields no text; in particular there
are exactly N blocks and their markers are in ascending page order. -/
theorem c3_page_structure (pages : List String) :
    (read_pdf_text (Except.ok pages)).text = (strJoin (pageBlocks pages)).trim ∧
      (pageBlocks pages).length = pages.length ∧
      ∀ i, i < pages.length →
        (pageBlocks pages).getD i ("") = pageMarker (i + 1) ++ pageBody (pages.getD i ("")) := by
  refine ⟨?_, pageBlocksFrom_length 0 pages, ?_⟩
  · show extractPagesText pages = _
    unfold extractPagesText pageBlocks
    rw [readPagesLoop_eq, String.empty_append]
  · intro i hi
    simpa using pageBlocksFrom_getD 0 pages i hi

/-- Witness for C3 at a concrete two-page document. -/
theorem c3_page_structure_witness :
    (read_pdf_text (Except.ok [("hello"), ("")])).text =
        (strJoin (pageBlocks [("hello"), ("")])).trim ∧
      (pageBlocks [("hello"), ("")]).length = ([("hello"), ("")] : List String).length ∧
      ∀ i, i < ([("hello"), ("")] : List String).length →
        (pageBlocks [("hello"), ("")]).getD i ("") =
          pageMarker (i + 1) ++ pageBody (([("hello"), ("")] : List String).getD i ("")) :=
  c3_page_structure [("hello"), ("")]

/-- Claim C4: an input that cannot be parsed as a PDF at all makes the
extractor report an error and return the empty string; the function is
total, so the exception never propagates. -/
theorem c4_unreadable_pdf (e : String) :
    read_pdf_text (Except.error e) = ⟨(""), true⟩ := rfl

/-- Claim C2: the writer produces a workbook with exactly one sheet,
whose first row is the literal header, whose row count is the record
count plus one, and whose row i+1 is record i's key, value and comment
in that column order. -/
theorem c2_spreadsheet_layout (data : List ExtractedPair) :
    (create_excel_bytes data).allSheets.length = 1 ∧
      (create_excel_bytes data).active.length = data.length + 1 ∧
      (create_excel_bytes data).active.getD 0 [] = [("Key"), ("Value"), ("Comment")] ∧
      ∀ i, i < data.length →
        (create_excel_bytes data).active.getD (i + 1) [] =
          [(data.getD i default).Key, (data.getD i default).Value,
            (data.getD i default).comment] := by
  rw [create_excel_bytes_eq]
  refine ⟨rfl, by simp, rfl, ?_⟩
  intro i hi
  show (data.map excelRow).getD i [] = _
  rw [map_excelRow_getD data i hi, excelRow_eq]

/-- Witness for C2 at a concrete one-record list. -/
theorem c2_spreadsheet_layout_witness :
    (create_excel_bytes [⟨("a"), ("b"), ("c")⟩]).allSheets.length = 1 ∧
      (create_excel_bytes [⟨("a"), ("b"), ("c")⟩]).active.length =
        ([⟨("a"), ("b"), ("c")⟩] : List ExtractedPair).length + 1 ∧
      (create_excel_bytes [⟨("a"), ("b"), ("c")⟩]).active.getD 0 [] =
        [("Key"), ("Value"), ("Comment")] ∧
      ∀ i, i < ([⟨("a"), ("b"), ("c")⟩] : List ExtractedPair).length →
        (create_excel_bytes [⟨("a"), ("b"), ("c")⟩]).active.getD (i + 1) [] =
          [(([⟨("a"), ("b"), ("c")⟩] : List ExtractedPair).getD i default).Key,
            (([⟨("a"), ("b"), ("c")⟩] : List ExtractedPair).getD i default).Value,
            (([⟨("a"), ("b"), ("c")⟩] : List ExtractedPair).getD i default).comment] :=
  c2_spreadsheet_layout [⟨("a"), ("b"), ("c")⟩]

/-- String-holding test agrees with string extraction succeeding. -/
theorem isStrOpt_eq_isSome (o : Option Json) : isStrOpt o = (asStr o).isSome := by
  cases o with
  | none => rfl
  | some v => cases v <;> rfl

/-- Row validation succeeds exactly on rows the spec-side predicate
accepts. -/
theorem pairValidate_isSome (j : Json) :
    (ExtractedPair.validate j).isSome = specPairValid j := by
  cases j with
  | obj fields =>
    simp only [ExtractedPair.validate, specPairValid, isStrOpt_eq_isSome]
    cases asStr (lookupField fields ("Key")) <;>
      cases asStr (lookupField fields ("Value")) <;>
        cases asStr (commentValue fields) <;> simp
  | null => rfl
  | bool b => rfl
  | num raw => rfl
  | str s => rfl
  | arr elems => rfl

/-- List validation succeeds exactly when every element validates. -/
theorem validatePairs_isSome (es : List Json) :
    (validatePairs es).isSome = es.all (fun e => (ExtractedPair.validate e).isSome) := by
  induction es with
  | nil => rfl
  | cons e es ih =>
    simp only [validatePairs, List.all_cons]
    cases h1 : ExtractedPair.validate e <;> cases h2 : validatePairs es <;>
      simp_all

/-- Document validation succeeds exactly on values the spec-side
predicate accepts. -/
theorem docValidate_isSome (j : Json) :
    (DocumentStructure.validate j).isSome = specDocValid j := by
  cases j with
  | obj fields =>
    simp only [DocumentStructure.validate, specDocValid]
    cases lookupField fields ("extracted_data") with
    | none => rfl
    | some v =>
      cases v with
      | arr elems =>
        have hp : ∀ e, (ExtractedPair.validate e).isSome = specPairValid e :=
          pairValidate_isSome
        simp [validatePairs_isSome, hp]
      | null => rfl
      | bool b => rfl
      | num raw => rfl
      | str s => rfl
      | obj fs => rfl
  | null => rfl
  | bool b => rfl
  | num raw => rfl
  | str s => rfl
  | arr elems => rfl

/-- Counterexample to claim C1 as stated: this JSON text has an extra
top-level field, a row carrying its comment under the field name
`comment` rather than the wire name `Comment`, and an extra row field,
yet validation succeeds. -/
theorem c1_counterexample :
    (DocumentStructure.model_validate_json c1CexText).isSome = true ∧
      (Json.parse c1CexText).map claimDocExact = some false :=
  ⟨rfl, rfl⟩

/-- Claim C1 (amended): validation succeeds exactly when the text
parses to an object whose `extracted_data` field is an array of objects
each supplying `Key` and `Value` as strings and the comment as a string
under `Comment` or, failing that, `comment`; extra fields are ignored.
Any missing field, wrong field type, wrong top-level shape, or
malformed JSON fails the whole validation, producing no record
sequence. -/
theorem c1_validation_characterization (s : String) :
    ((DocumentStructure.model_validate_json s).isSome = true) ↔
      ((Json.parse s).map specDocValid = some true) := by
  unfold DocumentStructure.model_validate_json
  cases Json.parse s with
  | none => simp
  | some j => simp [docValidate_isSome]

/-- Witness for C1 at a concrete JSON text. -/
theorem c1_validation_characterization_witness :
    ((DocumentStructure.model_validate_json c9Text).isSome = true) ↔
      ((Json.parse c9Text).map specDocValid = some true) :=
  c1_validation_characterization c9Text

/-- A successful list validation keeps the length and validates
pointwise, in order. -/
theorem validatePairs_spec (es : List Json) (ps : List ExtractedPair)
    (h : validatePairs es = some ps) :
    ps.length = es.length ∧
      ∀ i, i < es.length →
        ExtractedPair.validate (es.getD i Json.null) = some (ps.getD i default) := by
  induction es generalizing ps with
  | nil =>
    simp only [validatePairs, Option.some.injEq] at h
    subst h
    exact ⟨rfl, fun i hi => absurd hi (by simp)⟩
  | cons e es ih =>
    simp only [validatePairs] at h
    cases h1 : ExtractedPair.validate e with
    | none => rw [h1] at h; simp at h
    | some p =>
      cases h2 : validatePairs es with
      | none => rw [h1, h2] at h; simp at h
      | some rest =>
        rw [h1, h2] at h
        simp only [Option.some.injEq] at h
        subst h
        obtain ⟨hlen, hpt⟩ := ih rest h2
        refine ⟨by simp [hlen], ?_⟩
        intro i hi
        cases i with
        | zero => simpa using h1
        | succ n => simpa using hpt n (by simpa using hi)

/-- Claim C6: a valid response produces a record sequence whose length
equals the length of the `extracted_data` array and whose i-th record
is built from the i-th array element, order preserved. -/
theorem c6_order_preserved (j : Json) (d : DocumentStructure) (elems : List Json)
    (hv : DocumentStructure.validate j = some d)
    (he : jsonField j ("extracted_data") = some (Json.arr elems)) :
    d.extracted_data.length = elems.length ∧
      ∀ i, i < elems.length →
        ExtractedPair.validate (elems.getD i Json.null) =
          some (d.extracted_data.getD i default) := by
  cases j with
  | obj fields =>
    simp only [jsonField] at he
    simp only [DocumentStructure.validate, he] at hv
    cases h2 : validatePairs elems with
    | none => rw [h2] at hv; simp at hv
    | some ps =>
      rw [h2] at hv
      simp only [Option.map_some', Option.some.injEq] at hv
      obtain ⟨hlen, hpt⟩ := validatePairs_spec elems ps h2
      subst hv
      exact ⟨hlen, hpt⟩
  | null => simp [jsonField] at he
  | bool b => simp [jsonField] at he
  | num raw => simp [jsonField] at he
  | str s => simp [jsonField] at he
  | arr es => simp [jsonField] at he

/-- Witness for C6 at a concrete one-row response. -/
theorem c6_order_preserved_witness :
    c6wDoc.extracted_data.length = [c6wElem].length ∧
      ∀ i, i < [c6wElem].length →
        ExtractedPair.validate ([c6wElem].getD i Json.null) =
          some (c6wDoc.extracted_data.getD i default) :=
  c6_order_preserved c6wJson c6wDoc [c6wElem] (by rfl) (by rfl)

/-- Claim C7: a record whose wire field `Comment` holds `s` validates to
internal `comment = s`, and dumping by alias puts the same `s` back
under the wire name `Comment`. -/
theorem c7_comment_round_trip (j : Json) (p : ExtractedPair) (s : String)
    (hv : ExtractedPair.validate j = some p)
    (hc : jsonField j ("Comment") = some (Json.str s)) :
    p.comment = s ∧ (model_dump_by_alias p).lookup ("Comment") = some s := by
  cases j with
  | obj fields =>
    simp only [jsonField] at hc
    have hcv : commentValue fields = some (Json.str s) := by
      unfold commentValue
      rw [hc]
    simp only [ExtractedPair.validate, hcv] at hv
    cases hk : asStr (lookupField fields ("Key")) with
    | none => rw [hk] at hv; simp at hv
    | some k =>
      cases hw : asStr (lookupField fields ("Value")) with
      | none => rw [hk, hw] at hv; simp at hv
      | some v =>
        rw [hk, hw] at hv
        simp only [asStr, Option.some.injEq] at hv
        subst hv
        exact ⟨rfl, rfl⟩
  | null => simp [jsonField] at hc
  | bool b => simp [jsonField] at hc
  | num raw => simp [jsonField] at hc
  | str s2 => simp [jsonField] at hc
  | arr es => simp [jsonField] at hc

/-- Witness for C7 at a concrete row. -/
theorem c7_comment_round_trip_witness :
    (⟨("k"), ("v"), ("s0")⟩ : ExtractedPair).comment = ("s0") ∧
      (model_dump_by_alias ⟨("k"), ("v"), ("s0")⟩).lookup ("Comment") = some ("s0") :=
  c7_comment_round_trip c7wJson ⟨("k"), ("v"), ("s0")⟩ ("s0") (by rfl) (by rfl)

/-- Claim C5: when the extracted text is empty, the run warns and halts
before the LLM is called; no validation runs and no spreadsheet or
download is produced. -/
theorem c5_empty_text_halts (pdfContent : String) (resp : Option String)
    (h : pdfContent = ("")) :
    (runMain pdfContent resp).llmCalled = false ∧
      (runMain pdfContent resp).excel = none ∧
      (runMain pdfContent resp).downloadOffered = false ∧
      (runMain pdfContent resp).extractionWarning = true := by
  subst h
  simp [runMain]

/-- Witness for C5 at a concrete response. -/
theorem c5_empty_text_halts_witness :
    (runMain ("") (some ("x"))).llmCalled = false ∧
      (runMain ("") (some ("x"))).excel = none ∧
      (runMain ("") (some ("x"))).downloadOffered = false ∧
      (runMain ("") (some ("x"))).extractionWarning = true :=
  c5_empty_text_halts ("") (some ("x")) rfl

/-- Claim C9: a response that validates to an empty record list ends the
run silently: the LLM was called, but no error is shown, no spreadsheet
is built and no download is offered, because the empty list is as falsy
as the `None` of a validation failure. -/
theorem c9_empty_list_silent (pdfContent : String) (s : String)
    (hne : pdfContent ≠ (""))
    (hv : DocumentStructure.model_validate_json s = some ⟨[]⟩) :
    runMain pdfContent (some s) =
      { llmCalled := true, extractionWarning := false, errorShown := false,
        excel := none, downloadOffered := false } ∧
      pyTruthy (some []) = pyTruthy none := by
  refine ⟨?_, rfl⟩
  unfold runMain
  rw [if_neg hne]
  simp [extract_data_with_llm, hv, pyTruthy]

/-- Witness for C9 at a concrete empty-array response. -/
theorem c9_empty_list_silent_witness :
    runMain ("doc") (some c9Text) =
      { llmCalled := true, extractionWarning := false, errorShown := false,
        excel := none, downloadOffered := false } ∧
      pyTruthy (some []) = pyTruthy none :=
  c9_empty_list_silent ("doc") c9Text (by decide) (by rfl)

/-- Claim C10: the comment is accepted under the wire name `Comment` or
the field name `comment` (so a lowercase `comment` row validates),
while `Key` and `Value` are accepted only under those exact names: a
row whose fields include no `Key` entry, or no `Value` entry, fails. -/
theorem c10_alias_leniency (k v c : String) (fields : List (String × Json)) :
    (ExtractedPair.validate
        (Json.obj [(("Key"), Json.str k), (("Value"), Json.str v), (("comment"), Json.str c)]) =
      some ⟨k, v, c⟩) ∧
    (ExtractedPair.validate
        (Json.obj [(("Key"), Json.str k), (("Value"), Json.str v), (("Comment"), Json.str c)]) =
      some ⟨k, v, c⟩) ∧
    (lookupField fields ("Key") = none → ExtractedPair.validate (Json.obj fields) = none) ∧
    (lookupField fields ("Value") = none → ExtractedPair.validate (Json.obj fields) = none) := by
  refine ⟨rfl, rfl, ?_, ?_⟩
  · intro h
    simp [ExtractedPair.validate, h, asStr]
  · intro h
    simp only [ExtractedPair.validate, h]
    cases asStr (lookupField fields ("Key")) <;> simp [asStr]

/-- Witness for C10 at concrete rows. -/
theorem c10_alias_leniency_witness :
    (ExtractedPair.validate
        (Json.obj [(("Key"), Json.str ("a")), (("Value"), Json.str ("b")),
          (("comment"), Json.str ("c"))]) =
      some ⟨("a"), ("b"), ("c")⟩) ∧
      (ExtractedPair.validate (Json.obj [(("key"), Json.str ("a"))]) = none) :=
  ⟨(c10_alias_leniency ("a") ("b") ("c") [(("key"), Json.str ("a"))]).1,
    (c10_alias_leniency ("a") ("b") ("c") [(("key"), Json.str ("a"))]).2.2.1 (by rfl)⟩

/-- Claim C8: the end-to-end scenario: the mocked LLM response text
validates and the writer yields one sheet of exactly two rows, the
header followed by the extracted record. -/
theorem c8_end_to_end :
    (DocumentStructure.model_validate_json c8Text).map
        (fun d => (create_excel_bytes d.extracted_data).allSheets) =
      some [[[("Key"), ("Value"), ("Comment")],
             [("Revenue Growth"), ("Revenue grew 20%"), ("in Q3.")]]] := rfl

/-- Witness for C4 at a concrete parse failure. -/
theorem c4_unreadable_pdf_witness :
    read_pdf_text (Except.error ("boom")) = ⟨(""), true⟩ :=
  c4_unreadable_pdf ("boom")
